import Mathlib

/-!
Shallow embedding of the rusted-sntp SNTP client core
(src/sntprs/src/lib.rs, ntppacket.rs, ntpresult.rs) and proofs of the
specification claims about it.

Machine integers are modelled as Nat (unsigned) and Int (signed) with
explicit reduction modulo 2^w where Rust performs width-limited
arithmetic; release-build wrapping semantics is used for overflowing
operations, and the host is modelled as little-endian (so the Rust
u32::to_be / u64::to_be, used by the ntohl byte-order pass, is a byte
swap, and u32::from_le_bytes / u64::from_le_bytes read a buffer in
memory order).
-/

/-- Constant NSEC_IN_SEC from lib.rs. -/
def NSEC_IN_SEC : Nat := 1000000000

/-- Constant MODE_MASK = 0b0000_0111 from lib.rs. -/
def MODE_MASK : Nat := 7

/-- Constant MODE_SHIFT from lib.rs. -/
def MODE_SHIFT : Nat := 0

/-- Constant VERSION_MASK = 0b0011_1000 from lib.rs. -/
def VERSION_MASK : Nat := 56

/-- Constant VERSION_SHIFT from lib.rs. -/
def VERSION_SHIFT : Nat := 3

/-- Constant LI_MASK = 0b1100_0000 from lib.rs. -/
def LI_MASK : Nat := 192

/-- Constant LI_SHIFT from lib.rs. -/
def LI_SHIFT : Nat := 6

/-- Constant SNTP_UNICAST from process_response. -/
def SNTP_UNICAST : Nat := 4

/-- Constant SNTP_BROADCAST from process_response. -/
def SNTP_BROADCAST : Nat := 5

/-- Constant LI_MAX_VALUE from process_response. -/
def LI_MAX_VALUE : Nat := 3

/-- Constant NtpPacket::NTP_TIMESTAMP_DELTA from ntppacket.rs. -/
def NTP_TIMESTAMP_DELTA : Nat := 2208988800

/-- Modulus of the u32 type, 2 to the 32. -/
def U32_MOD : Nat := 4294967296

/-- Modulus of the u64 type, 2 to the 64. -/
def U64_MOD : Nat := 18446744073709551616

/-- Reinterpretation of a u64 bit pattern as an i64 (the Rust cast as i64). -/
def toI64 (n : Nat) : Int :=
  if n < 9223372036854775808 then (n : Int) else (n : Int) - 18446744073709551616

/-- Reinterpretation of an i64 value as a u64 (the Rust cast as u64). -/
def toU64 (z : Int) : Nat :=
  (z % 18446744073709551616).toNat

/-- Wrapping of an integer into the i64 range, the result of any i64
arithmetic operation in a release build. -/
def wrapI64 (z : Int) : Int :=
  (z + 9223372036854775808) % 18446744073709551616 - 9223372036854775808

/-- Rust i64::abs under release (wrapping) semantics: the absolute value
wrapped back into the i64 range, so that it fixes i64::MIN. -/
def i64abs (z : Int) : Int :=
  wrapI64 (Int.natAbs z : Int)

/-- Wrapping u64 subtraction a - b (release semantics). -/
def subU64 (a b : Nat) : Nat :=
  (a + 18446744073709551616 - b) % 18446744073709551616

/-- Wrapping u32 subtraction a - b (release semantics). -/
def subU32 (a b : Nat) : Nat :=
  (a + 4294967296 - b) % 4294967296

/-- Reinterpretation of an i8 value as a u8 (the Rust cast as u8). -/
def i8ToU8 (z : Int) : Nat :=
  (z % 256).toNat

/-- Reinterpretation of a u8 value as an i8 (the Rust cast as i8). -/
def u8ToI8 (n : Nat) : Int :=
  if n < 128 then (n : Int) else (n : Int) - 256

/-- In-memory NTP packet, struct NtpPacket of ntppacket.rs.  u8/u32/u64
fields become Nat, the signed i8 fields become Int. -/
structure NtpPacket where
  li_vn_mode : Nat
  stratum : Nat
  poll : Int
  precision : Int
  root_delay : Nat
  root_dispersion : Nat
  ref_id : Nat
  ref_timestamp : Nat
  origin_timestamp : Nat
  recv_timestamp : Nat
  tx_timestamp : Nat
deriving DecidableEq

/-- Range invariant carried by the Rust field types of NtpPacket:
u8 fields below 256, i8 fields in the signed byte range, u32 fields
below 2^32 and u64 fields below 2^64. -/
def NtpPacket.WF (p : NtpPacket) : Prop :=
  p.li_vn_mode < 256 ∧ p.stratum < 256 ∧
  -128 ≤ p.poll ∧ p.poll < 128 ∧ -128 ≤ p.precision ∧ p.precision < 128 ∧
  p.root_delay < U32_MOD ∧ p.root_dispersion < U32_MOD ∧ p.ref_id < U32_MOD ∧
  p.ref_timestamp < U64_MOD ∧ p.origin_timestamp < U64_MOD ∧
  p.recv_timestamp < U64_MOD ∧ p.tx_timestamp < U64_MOD

instance (p : NtpPacket) : Decidable p.WF := by
  unfold NtpPacket.WF; infer_instance

/-- Big-endian byte encoding of a u32 (Rust u32::to_be_bytes), most
significant byte first. -/
def u32BeBytes (n : Nat) : List Nat :=
  [n / 16777216 % 256, n / 65536 % 256, n / 256 % 256, n % 256]

/-- Big-endian byte encoding of a u64 (Rust u64::to_be_bytes). -/
def u64BeBytes (n : Nat) : List Nat :=
  [n / 72057594037927936 % 256, n / 281474976710656 % 256,
   n / 1099511627776 % 256, n / 4294967296 % 256,
   n / 16777216 % 256, n / 65536 % 256, n / 256 % 256, n % 256]

/-- Little-endian read of four bytes as a u32 (Rust u32::from_le_bytes). -/
def u32FromLeBytes (l : List Nat) : Nat :=
  l.getD 0 0 + 256 * l.getD 1 0 + 65536 * l.getD 2 0 + 16777216 * l.getD 3 0

/-- Little-endian read of eight bytes as a u64 (Rust u64::from_le_bytes). -/
def u64FromLeBytes (l : List Nat) : Nat :=
  l.getD 0 0 + 256 * l.getD 1 0 + 65536 * l.getD 2 0 + 16777216 * l.getD 3 0 +
  4294967296 * l.getD 4 0 + 1099511627776 * l.getD 5 0 +
  281474976710656 * l.getD 6 0 + 72057594037927936 * l.getD 7 0

/-- Encoding From &NtpPacket for RawNtpPacket of lib.rs: the 48-byte
wire buffer, every multi-byte field written with to_be_bytes in the
fixed field order. -/
def rawFromNtpPacket (p : NtpPacket) : List Nat :=
  [p.li_vn_mode, p.stratum, i8ToU8 p.poll, i8ToU8 p.precision] ++
  u32BeBytes p.root_delay ++ u32BeBytes p.root_dispersion ++
  u32BeBytes p.ref_id ++ u64BeBytes p.ref_timestamp ++
  u64BeBytes p.origin_timestamp ++ u64BeBytes p.recv_timestamp ++
  u64BeBytes p.tx_timestamp

/-- Decoding From RawNtpPacket for NtpPacket of lib.rs: each multi-byte
field read with from_le_bytes from its slice of the 48-byte buffer. -/
def ntpPacketFromRaw (r : List Nat) : NtpPacket where
  li_vn_mode := r.getD 0 0
  stratum := r.getD 1 0
  poll := u8ToI8 (r.getD 2 0)
  precision := u8ToI8 (r.getD 3 0)
  root_delay := u32FromLeBytes ((r.drop 4).take 4)
  root_dispersion := u32FromLeBytes ((r.drop 8).take 4)
  ref_id := u32FromLeBytes ((r.drop 12).take 4)
  ref_timestamp := u64FromLeBytes ((r.drop 16).take 8)
  origin_timestamp := u64FromLeBytes ((r.drop 24).take 8)
  recv_timestamp := u64FromLeBytes ((r.drop 32).take 8)
  tx_timestamp := u64FromLeBytes ((r.drop 40).take 8)

/-- Rust u32::to_be on a little-endian host (the ntohl of lib.rs for
u32): a byte swap of the 32-bit value. -/
def ntohl32 (n : Nat) : Nat :=
  n / 16777216 % 256 + 256 * (n / 65536 % 256) + 65536 * (n / 256 % 256) +
  16777216 * (n % 256)

/-- Rust u64::to_be on a little-endian host (the ntohl of lib.rs for
u64): a byte swap of the 64-bit value. -/
def ntohl64 (n : Nat) : Nat :=
  n / 72057594037927936 % 256 + 256 * (n / 281474976710656 % 256) +
  65536 * (n / 1099511627776 % 256) + 16777216 * (n / 4294967296 % 256) +
  4294967296 * (n / 16777216 % 256) + 1099511627776 * (n / 65536 % 256) +
  281474976710656 * (n / 256 % 256) + 72057594037927936 * (n % 256)

/-- convert_from_network of lib.rs: apply ntohl to every multi-byte
field of the packet. -/
def convert_from_network (p : NtpPacket) : NtpPacket :=
  { p with
    root_delay := ntohl32 p.root_delay
    root_dispersion := ntohl32 p.root_dispersion
    ref_id := ntohl32 p.ref_id
    ref_timestamp := ntohl64 p.ref_timestamp
    origin_timestamp := ntohl64 p.origin_timestamp
    recv_timestamp := ntohl64 p.recv_timestamp
    tx_timestamp := ntohl64 p.tx_timestamp }

/-- The shifter closure of process_response: (val & mask) >> shift. -/
def shifter (val mask shift : Nat) : Nat :=
  (val &&& mask) >>> shift

/-- SNTP request result, struct NtpResult of ntpresult.rs. -/
structure NtpResult where
  sec : Nat
  nsec : Nat
  roundtrip : Nat
  offset : Int
deriving DecidableEq

/-- NtpResult::new of ntpresult.rs: carry whole seconds out of the
nanosecond argument into the seconds field.  The carry addition is a
u32 addition, so it reduces modulo 2^32 (release wrapping semantics). -/
def NtpResult.new (sec nsec roundtrip : Nat) (offset : Int) : NtpResult :=
  let residue := nsec / NSEC_IN_SEC
  let nsec2 := nsec % NSEC_IN_SEC
  let sec2 := (sec + residue) % 4294967296
  ⟨sec2, nsec2, roundtrip, offset⟩

/-- The timestamp split of process_response, lines 282-284 of lib.rs:
seconds = (tx_timestamp >> 32) as u32, nsec = low 32 bits (mask with
0x0000_0000_ffff_ffff, i.e. reduction mod 2^32) as u32, then
tx_tm = seconds - NTP_TIMESTAMP_DELTA as a u32 subtraction. -/
def splitTimestamp (ts : Nat) : Nat × Nat :=
  (subU32 (ts / 4294967296 % 4294967296) NTP_TIMESTAMP_DELTA, ts % 4294967296)

/-- process_response of lib.rs: decode the raw buffer, run the
byte-order pass, validate origin timestamp, mode, leap indicator,
version and stratum in that order, then compute roundtrip delay and
offset and build the NtpResult from the split transmit timestamp. -/
def process_response (req : NtpPacket) (resp : List Nat)
    (recv_timestamp : Nat) : Except String NtpResult :=
  let packet := convert_from_network (ntpPacketFromRaw resp)
  if req.tx_timestamp ≠ packet.origin_timestamp then
    Except.error ("Incorrect origin timestamp")
  else
    let mode := shifter packet.li_vn_mode MODE_MASK MODE_SHIFT
    let li := shifter packet.li_vn_mode LI_MASK LI_SHIFT
    let resp_version := shifter packet.li_vn_mode VERSION_MASK VERSION_SHIFT
    let req_version := shifter req.li_vn_mode VERSION_MASK VERSION_SHIFT
    if mode ≠ SNTP_UNICAST ∧ mode ≠ SNTP_BROADCAST then
      Except.error ("Incorrect MODE value")
    else if li > LI_MAX_VALUE then
      Except.error ("Incorrect LI value")
    else if req_version ≠ resp_version then
      Except.error ("Incorrect response version")
    else if packet.stratum = 0 then
      Except.error ("Incorrect STRATUM headers")
    else
      let delta := wrapI64 (toI64 (subU64 recv_timestamp packet.origin_timestamp)
        - toI64 (subU64 packet.tx_timestamp packet.recv_timestamp))
      let theta := Int.tdiv
        (wrapI64 (wrapI64 (toI64 packet.recv_timestamp - toI64 packet.origin_timestamp)
          + wrapI64 (toI64 recv_timestamp - toI64 packet.tx_timestamp))) 2
      let st := splitTimestamp packet.tx_timestamp
      Except.ok (NtpResult.new st.1 st.2 (toU64 (i64abs delta)) theta)

/-- Constant SNTP_CLIENT_MODE of ntppacket.rs. -/
def SNTP_CLIENT_MODE : Nat := 3

/-- Constant SNTP_VERSION = 4 << 3 of ntppacket.rs. -/
def SNTP_VERSION : Nat := 32

/-- get_ntp_timestamp of lib.rs, parameterised by the system clock
reading: whole seconds since the Unix epoch and the microsecond part
of the current second.  ((secs + delta) << 32) + micros in u64. -/
def get_ntp_timestamp (secs micros : Nat) : Nat :=
  ((secs + NTP_TIMESTAMP_DELTA) % 18446744073709551616 * 4294967296
    + micros) % 18446744073709551616

/-- NtpPacket::new of ntppacket.rs, parameterised by the transmit
timestamp obtained from get_ntp_timestamp. -/
def NtpPacket.new (tx : Nat) : NtpPacket where
  li_vn_mode := SNTP_CLIENT_MODE ||| SNTP_VERSION
  stratum := 0
  poll := 0
  precision := 0
  root_delay := 0
  root_dispersion := 0
  ref_id := 0
  ref_timestamp := 0
  origin_timestamp := 0
  recv_timestamp := 0
  tx_timestamp := tx

/-- Roundtrip delay formula of the specification: (T4 - T1) - (T3 - T2)
in signed 64-bit arithmetic on the full timestamp values, then absolute
value. -/
def delaySpec (t1 t2 t3 t4 : Nat) : Nat :=
  (wrapI64 (wrapI64 (toI64 t4 - toI64 t1) - wrapI64 (toI64 t3 - toI64 t2))).natAbs

/-- Clock offset formula of the specification: ((T2 - T1) + (T3 - T4)) / 2
in signed 64-bit arithmetic, integer division truncating toward zero. -/
def offsetSpec (t1 t2 t3 t4 : Nat) : Int :=
  Int.tdiv (wrapI64 (wrapI64 (toI64 t2 - toI64 t1)
    + wrapI64 (toI64 t3 - toI64 t4))) 2

/-- Concrete packet exercising the wire codec: root_delay = 1, all
other fields zero. -/
def packetEx : NtpPacket :=
  ⟨0, 0, 0, 0, 1, 0, 0, 0, 0, 0, 0⟩

/-- Concrete request packet with transmit timestamp zero. -/
def reqEx : NtpPacket :=
  NtpPacket.new 0

/-- Concrete valid 48-byte response to reqEx: li_vn_mode = 0b00_100_100
(leap 0, version 4, mode 4), stratum 1, origin timestamp 0, receive
timestamp 0, transmit timestamp 4 (big-endian on the wire). -/
def respEx : List Nat :=
  [36, 1, 0, 0,
   0, 0, 0, 0,
   0, 0, 0, 0,
   0, 0, 0, 0,
   0, 0, 0, 0, 0, 0, 0, 0,
   0, 0, 0, 0, 0, 0, 0, 0,
   0, 0, 0, 0, 0, 0, 0, 0,
   0, 0, 0, 0, 0, 0, 0, 4]

/-- Concrete all-zero 48-byte response buffer. -/
def respZero : List Nat := List.replicate 48 0

/-- Concrete request packet with transmit timestamp one. -/
def reqOne : NtpPacket := NtpPacket.new 1

theorem ntohl32_bytes (b0 b1 b2 b3 : Nat) (h0 : b0 < 256) (h1 : b1 < 256)
    (h2 : b2 < 256) (h3 : b3 < 256) :
    ntohl32 (16777216 * b3 + 65536 * b2 + 256 * b1 + b0) =
      16777216 * b0 + 65536 * b1 + 256 * b2 + b3 := by
  unfold ntohl32
  omega

theorem ntohl32_invol (n : Nat) (h : n < U32_MOD) : ntohl32 (ntohl32 n) = n := by
  have hd : n = 16777216 * (n / 16777216 % 256) + 65536 * (n / 65536 % 256) +
      256 * (n / 256 % 256) + n % 256 := by
    unfold U32_MOD at h
    omega
  rw [hd, ntohl32_bytes _ _ _ _ (by omega) (by omega) (by omega) (by omega),
    ntohl32_bytes _ _ _ _ (by omega) (by omega) (by omega) (by omega)]

theorem ntohl64_bytes (b0 b1 b2 b3 b4 b5 b6 b7 : Nat) (h0 : b0 < 256)
    (h1 : b1 < 256) (h2 : b2 < 256) (h3 : b3 < 256) (h4 : b4 < 256)
    (h5 : b5 < 256) (h6 : b6 < 256) (h7 : b7 < 256) :
    ntohl64 (72057594037927936 * b7 + 281474976710656 * b6 +
      1099511627776 * b5 + 4294967296 * b4 + 16777216 * b3 + 65536 * b2 +
      256 * b1 + b0) =
      72057594037927936 * b0 + 281474976710656 * b1 + 1099511627776 * b2 +
      4294967296 * b3 + 16777216 * b4 + 65536 * b5 + 256 * b6 + b7 := by
  have e7 : (72057594037927936 * b7 + 281474976710656 * b6 +
      1099511627776 * b5 + 4294967296 * b4 + 16777216 * b3 + 65536 * b2 +
      256 * b1 + b0) / 72057594037927936 % 256 = b7 := by omega
  have e6 : (72057594037927936 * b7 + 281474976710656 * b6 +
      1099511627776 * b5 + 4294967296 * b4 + 16777216 * b3 + 65536 * b2 +
      256 * b1 + b0) / 281474976710656 % 256 = b6 := by omega
  have e5 : (72057594037927936 * b7 + 281474976710656 * b6 +
      1099511627776 * b5 + 4294967296 * b4 + 16777216 * b3 + 65536 * b2 +
      256 * b1 + b0) / 1099511627776 % 256 = b5 := by omega
  have e4 : (72057594037927936 * b7 + 281474976710656 * b6 +
      1099511627776 * b5 + 4294967296 * b4 + 16777216 * b3 + 65536 * b2 +
      256 * b1 + b0) / 4294967296 % 256 = b4 := by omega
  have e3 : (72057594037927936 * b7 + 281474976710656 * b6 +
      1099511627776 * b5 + 4294967296 * b4 + 16777216 * b3 + 65536 * b2 +
      256 * b1 + b0) / 16777216 % 256 = b3 := by omega
  have e2 : (72057594037927936 * b7 + 281474976710656 * b6 +
      1099511627776 * b5 + 4294967296 * b4 + 16777216 * b3 + 65536 * b2 +
      256 * b1 + b0) / 65536 % 256 = b2 := by omega
  have e1 : (72057594037927936 * b7 + 281474976710656 * b6 +
      1099511627776 * b5 + 4294967296 * b4 + 16777216 * b3 + 65536 * b2 +
      256 * b1 + b0) / 256 % 256 = b1 := by omega
  have e0 : (72057594037927936 * b7 + 281474976710656 * b6 +
      1099511627776 * b5 + 4294967296 * b4 + 16777216 * b3 + 65536 * b2 +
      256 * b1 + b0) % 256 = b0 := by omega
  unfold ntohl64
  rw [e7, e6, e5, e4, e3, e2, e1, e0]
  ring

theorem ntohl64_invol (n : Nat) (h : n < U64_MOD) : ntohl64 (ntohl64 n) = n := by
  have hd : n = 72057594037927936 * (n / 72057594037927936 % 256) +
      281474976710656 * (n / 281474976710656 % 256) +
      1099511627776 * (n / 1099511627776 % 256) +
      4294967296 * (n / 4294967296 % 256) + 16777216 * (n / 16777216 % 256) +
      65536 * (n / 65536 % 256) + 256 * (n / 256 % 256) + n % 256 := by
    unfold U64_MOD at h
    omega
  rw [hd,
    ntohl64_bytes _ _ _ _ _ _ _ _ (by omega) (by omega) (by omega) (by omega)
      (by omega) (by omega) (by omega) (by omega),
    ntohl64_bytes _ _ _ _ _ _ _ _ (by omega) (by omega) (by omega) (by omega)
      (by omega) (by omega) (by omega) (by omega)]

theorem u8ToI8_i8ToU8 (z : Int) (hlo : -128 ≤ z) (hhi : z < 128) :
    u8ToI8 (i8ToU8 z) = z := by
  unfold u8ToI8 i8ToU8
  split <;> omega

theorem decode_encode_eq (p : NtpPacket) (h : p.WF) :
    ntpPacketFromRaw (rawFromNtpPacket p) =
      ⟨p.li_vn_mode, p.stratum, p.poll, p.precision,
       ntohl32 p.root_delay, ntohl32 p.root_dispersion, ntohl32 p.ref_id,
       ntohl64 p.ref_timestamp, ntohl64 p.origin_timestamp,
       ntohl64 p.recv_timestamp, ntohl64 p.tx_timestamp⟩ := by
  obtain ⟨-, -, hp1, hp2, hq1, hq2, -⟩ := h
  simp only [ntpPacketFromRaw, rawFromNtpPacket, u32BeBytes, u64BeBytes,
    List.cons_append, List.nil_append, List.drop_succ_cons, List.drop_zero,
    List.take_succ_cons, List.take_zero, List.getD_cons_zero,
    List.getD_cons_succ, u32FromLeBytes, u64FromLeBytes, ntohl32, ntohl64,
    NtpPacket.mk.injEq, true_and, and_true]
  exact ⟨u8ToI8_i8ToU8 _ hp1 hp2, u8ToI8_i8ToU8 _ hq1 hq2⟩

theorem conv_conv_eq (p : NtpPacket) (h : p.WF) :
    convert_from_network (convert_from_network p) = p := by
  obtain ⟨a, b, c, d, e, f, g, t1, t2, t3, t4⟩ := p
  obtain ⟨-, -, -, -, -, -, he, hf, hg, ht1, ht2, ht3, ht4⟩ := h
  simp only [convert_from_network, NtpPacket.mk.injEq, true_and]
  exact ⟨ntohl32_invol e he, ntohl32_invol f hf, ntohl32_invol g hg,
    ntohl64_invol t1 ht1, ntohl64_invol t2 ht2, ntohl64_invol t3 ht3,
    ntohl64_invol t4 ht4⟩

theorem conv_decode_encode_eq (p : NtpPacket) (h : p.WF) :
    convert_from_network (ntpPacketFromRaw (rawFromNtpPacket p)) = p := by
  obtain ⟨a, b, c, d, e, f, g, t1, t2, t3, t4⟩ := p
  rw [decode_encode_eq _ h]
  obtain ⟨-, -, -, -, -, -, he, hf, hg, ht1, ht2, ht3, ht4⟩ := h
  simp only [convert_from_network, NtpPacket.mk.injEq, true_and]
  exact ⟨ntohl32_invol _ he, ntohl32_invol _ hf, ntohl32_invol _ hg,
    ntohl64_invol _ ht1, ntohl64_invol _ ht2, ntohl64_invol _ ht3,
    ntohl64_invol _ ht4⟩

/-- Claim C1 counterexample: the claim decode(encode(p)) = p fails on the
packet with root_delay = 1, because encode writes big-endian bytes while
decode reads them little-endian, so the field comes back byte-swapped as
16777216. -/
theorem decode_encode_not_identity :
    ntpPacketFromRaw (rawFromNtpPacket packetEx) ≠ packetEx := by
  decide

/-- Claim C1 (amended): for every well-formed packet p, decoding the
48-byte encoding of p recovers the four one-byte fields unchanged and
returns every multi-byte field byte-swapped (so one application of the
byte-order pass, not the plain decode, inverts encode). -/
theorem decode_encode_swaps_fields (p : NtpPacket) (h : p.WF) :
    ntpPacketFromRaw (rawFromNtpPacket p) =
      ⟨p.li_vn_mode, p.stratum, p.poll, p.precision,
       ntohl32 p.root_delay, ntohl32 p.root_dispersion, ntohl32 p.ref_id,
       ntohl64 p.ref_timestamp, ntohl64 p.origin_timestamp,
       ntohl64 p.recv_timestamp, ntohl64 p.tx_timestamp⟩ :=
  decode_encode_eq p h

/-- Witness for the amended Claim C1 at the packet with root_delay = 1:
the hypothesis holds and the decoded packet has root_delay 16777216. -/
theorem decode_encode_swaps_fields_witness :
    packetEx.WF ∧
    ntpPacketFromRaw (rawFromNtpPacket packetEx) =
      ⟨0, 0, 0, 0, 16777216, 0, 0, 0, 0, 0, 0⟩ :=
  ⟨by decide, (decode_encode_swaps_fields packetEx (by decide)).trans (by decide)⟩

/-- Claim C9: the byte-order-correction pass convert_from_network is an
involution on well-formed packets and inverts decode-of-encode, and it
is not idempotent (applying it twice differs from applying it once on
some packet). -/
theorem convert_from_network_involution :
    (∀ p : NtpPacket, p.WF →
      convert_from_network (convert_from_network p) = p ∧
      convert_from_network (ntpPacketFromRaw (rawFromNtpPacket p)) = p) ∧
    (∃ p : NtpPacket,
      convert_from_network (convert_from_network p) ≠ convert_from_network p) :=
  ⟨fun p h => ⟨conv_conv_eq p h, conv_decode_encode_eq p h⟩,
   ⟨packetEx, by decide⟩⟩

/-- Witness for Claim C9 at the packet with root_delay = 1. -/
theorem convert_from_network_involution_witness :
    packetEx.WF ∧
    convert_from_network (convert_from_network packetEx) = packetEx :=
  ⟨by decide, (convert_from_network_involution.1 packetEx (by decide)).1⟩

/-- Claim C5 counterexample: at sec = u32 max and subsecond = one whole
second the carry addition leaves the u32 range, so the constructed
Result does not satisfy result.sec = sec + subsecond div UNITS_PER_SECOND
(the u32 addition wraps to 0 in a release build, and panics in a checked
build). -/
theorem new_normalization_cex :
    ¬ (NtpResult.new 4294967295 1000000000 0 0).sec =
        4294967295 + 1000000000 / NSEC_IN_SEC := by
  decide

/-- Claim C5 (amended): for every sec and subsecond with
subsecond at least UNITS_PER_SECOND, provided the carry addition stays in
the u32 range, the constructed Result has nsec = subsecond mod
UNITS_PER_SECOND and sec = sec + subsecond div UNITS_PER_SECOND, and its
nsec field is always below UNITS_PER_SECOND. -/
theorem new_normalization (sec nsec roundtrip : Nat) (offset : Int)
    (hge : NSEC_IN_SEC ≤ nsec)
    (hnw : sec + nsec / NSEC_IN_SEC < U32_MOD) :
    (NtpResult.new sec nsec roundtrip offset).nsec = nsec % NSEC_IN_SEC ∧
    (NtpResult.new sec nsec roundtrip offset).sec = sec + nsec / NSEC_IN_SEC ∧
    (NtpResult.new sec nsec roundtrip offset).nsec < NSEC_IN_SEC := by
  simp only [NtpResult.new, NSEC_IN_SEC, U32_MOD] at *
  refine ⟨trivial, ?_, ?_⟩ <;> omega

/-- Witness for the amended Claim C5 at sec = 1, subsecond = 1.5e9. -/
theorem new_normalization_witness :
    NSEC_IN_SEC ≤ 1500000000 ∧ 1 + 1500000000 / NSEC_IN_SEC < U32_MOD ∧
    ((NtpResult.new 1 1500000000 0 0).nsec = 1500000000 % NSEC_IN_SEC ∧
     (NtpResult.new 1 1500000000 0 0).sec = 1 + 1500000000 / NSEC_IN_SEC ∧
     (NtpResult.new 1 1500000000 0 0).nsec < NSEC_IN_SEC) :=
  ⟨by decide, by decide,
   new_normalization 1 1500000000 0 0 (by decide) (by decide)⟩

/-- Claim C10: the carry addition of NtpResult::new stays in the u32
range exactly under the precondition sec at most u32 max minus the
carry; above it the mathematical sum leaves the u32 range (a panic in a
checked build, a wrap in release), and under it the constructed sec
field equals the exact sum. -/
theorem new_carry_range (sec nsec roundtrip : Nat) (offset : Int)
    (hsec : sec < U32_MOD) (hnsec : nsec < U32_MOD) :
    (sec ≤ 4294967295 - nsec / NSEC_IN_SEC →
      sec + nsec / NSEC_IN_SEC ≤ 4294967295 ∧
      (NtpResult.new sec nsec roundtrip offset).sec =
        sec + nsec / NSEC_IN_SEC) ∧
    (4294967295 - nsec / NSEC_IN_SEC < sec →
      4294967295 < sec + nsec / NSEC_IN_SEC) := by
  simp only [NtpResult.new, NSEC_IN_SEC, U32_MOD] at *
  constructor
  · intro hle
    constructor <;> omega
  · intro hlt
    omega

/-- Witness for Claim C10 at sec = 5, nsec = 3e9 (carry 3, no overflow). -/
theorem new_carry_range_witness :
    5 < U32_MOD ∧ 3000000000 < U32_MOD ∧
    (5 ≤ 4294967295 - 3000000000 / NSEC_IN_SEC) ∧
    (5 + 3000000000 / NSEC_IN_SEC ≤ 4294967295 ∧
     (NtpResult.new 5 3000000000 0 0).sec = 5 + 3000000000 / NSEC_IN_SEC) :=
  ⟨by decide, by decide, by decide,
   (new_carry_range 5 3000000000 0 0 (by decide) (by decide)).1 (by decide)⟩

/-- Claim C7: every packet built by NtpPacket::new has mode 3 (client),
version 4 and leap indicator 0 packed into li_vn_mode, every other
numeric field 0, and its transmit timestamp stamped with the current
time in wire format from get_ntp_timestamp. -/
theorem new_request_fields (secs micros : Nat) :
    shifter (NtpPacket.new (get_ntp_timestamp secs micros)).li_vn_mode
        MODE_MASK MODE_SHIFT = 3 ∧
    shifter (NtpPacket.new (get_ntp_timestamp secs micros)).li_vn_mode
        VERSION_MASK VERSION_SHIFT = 4 ∧
    shifter (NtpPacket.new (get_ntp_timestamp secs micros)).li_vn_mode
        LI_MASK LI_SHIFT = 0 ∧
    (NtpPacket.new (get_ntp_timestamp secs micros)).stratum = 0 ∧
    (NtpPacket.new (get_ntp_timestamp secs micros)).poll = 0 ∧
    (NtpPacket.new (get_ntp_timestamp secs micros)).precision = 0 ∧
    (NtpPacket.new (get_ntp_timestamp secs micros)).root_delay = 0 ∧
    (NtpPacket.new (get_ntp_timestamp secs micros)).root_dispersion = 0 ∧
    (NtpPacket.new (get_ntp_timestamp secs micros)).ref_id = 0 ∧
    (NtpPacket.new (get_ntp_timestamp secs micros)).ref_timestamp = 0 ∧
    (NtpPacket.new (get_ntp_timestamp secs micros)).origin_timestamp = 0 ∧
    (NtpPacket.new (get_ntp_timestamp secs micros)).recv_timestamp = 0 ∧
    (NtpPacket.new (get_ntp_timestamp secs micros)).tx_timestamp =
      get_ntp_timestamp secs micros :=
  ⟨by show shifter (SNTP_CLIENT_MODE ||| SNTP_VERSION) MODE_MASK MODE_SHIFT = 3
      decide,
   by show shifter (SNTP_CLIENT_MODE ||| SNTP_VERSION) VERSION_MASK
        VERSION_SHIFT = 4
      decide,
   by show shifter (SNTP_CLIENT_MODE ||| SNTP_VERSION) LI_MASK LI_SHIFT = 0
      decide,
   rfl, rfl, rfl, rfl, rfl, rfl, rfl, rfl, rfl, rfl⟩

/-- Claim C8: splitting a 64-bit fixed-point timestamp as done for the
response transmit timestamp yields seconds = (timestamp shifted right by
32) minus the epoch offset and subsecond = the low 32 bits, whenever the
high 32 bits are at least the epoch offset. -/
theorem split_timestamp_exact (ts : Nat) (h64 : ts < U64_MOD)
    (hd : NTP_TIMESTAMP_DELTA ≤ ts / 4294967296) :
    splitTimestamp ts = (ts / 4294967296 - NTP_TIMESTAMP_DELTA, ts % 4294967296) := by
  unfold splitTimestamp subU32
  unfold U64_MOD at h64
  unfold NTP_TIMESTAMP_DELTA at *
  simp only [Prod.mk.injEq, and_true]
  omega

/-- Witness for Claim C8 at the timestamp with high word 2208988801 and
low word 7, one second after the Unix epoch. -/
theorem split_timestamp_exact_witness :
    9487534657525252103 < U64_MOD ∧
    NTP_TIMESTAMP_DELTA ≤ 9487534657525252103 / 4294967296 ∧
    splitTimestamp 9487534657525252103 = (1, 7) :=
  ⟨by decide, by decide,
   (split_timestamp_exact 9487534657525252103 (by decide) (by decide)).trans
     (by decide)⟩

theorem li_shift_le (b : Nat) : shifter b LI_MASK LI_SHIFT ≤ LI_MAX_VALUE := by
  unfold shifter LI_MASK LI_SHIFT LI_MAX_VALUE
  have h1 : b &&& 192 ≤ 192 := Nat.and_le_right
  calc (b &&& 192) >>> 6 = (b &&& 192) / 2 ^ 6 := Nat.shiftRight_eq_div_pow _ _
    _ ≤ 192 / 2 ^ 6 := Nat.div_le_div_right h1
    _ = 3 := by norm_num

/-- Claim C6: the leap-indicator value extracted by masking the top two
bits and shifting right by six is always at most three, so the
InvalidLeapIndicator branch of process_response is unreachable: no input
ever produces that error. -/
theorem leap_indicator_check_unreachable :
    (∀ b : Nat, shifter b LI_MASK LI_SHIFT ≤ LI_MAX_VALUE) ∧
    (∀ (req : NtpPacket) (resp : List Nat) (ts : Nat),
      process_response req resp ts ≠ Except.error ("Incorrect LI value")) := by
  refine ⟨li_shift_le, ?_⟩
  intro req resp ts h
  simp only [process_response] at h
  split at h
  · injection h with h2
    exact absurd h2 (by decide)
  · split at h
    · injection h with h2
      exact absurd h2 (by decide)
    · split at h
      · rename_i hcond
        exact absurd hcond (Nat.not_lt.mpr (li_shift_le _))
      · split at h
        · injection h with h2
          exact absurd h2 (by decide)
        · split at h
          · injection h with h2
            exact absurd h2 (by decide)
          · exact Except.noConfusion h

/-- Claim C2: the validation pipeline of process_response checks origin
timestamp, mode, leap indicator, version and stratum in that order, and
the first failing check determines the returned error; in particular a
response failing both the origin-timestamp check and the stratum check
reports the origin-timestamp error. -/
theorem validation_order (req : NtpPacket) (resp : List Nat) (ts : Nat) :
    (req.tx_timestamp ≠
        (convert_from_network (ntpPacketFromRaw resp)).origin_timestamp ∧
      (convert_from_network (ntpPacketFromRaw resp)).stratum = 0 →
      process_response req resp ts =
        Except.error ("Incorrect origin timestamp")) ∧
    (req.tx_timestamp =
        (convert_from_network (ntpPacketFromRaw resp)).origin_timestamp →
      shifter (convert_from_network (ntpPacketFromRaw resp)).li_vn_mode
          MODE_MASK MODE_SHIFT ≠ SNTP_UNICAST →
      shifter (convert_from_network (ntpPacketFromRaw resp)).li_vn_mode
          MODE_MASK MODE_SHIFT ≠ SNTP_BROADCAST →
      process_response req resp ts = Except.error ("Incorrect MODE value")) ∧
    (req.tx_timestamp =
        (convert_from_network (ntpPacketFromRaw resp)).origin_timestamp →
      (shifter (convert_from_network (ntpPacketFromRaw resp)).li_vn_mode
          MODE_MASK MODE_SHIFT = SNTP_UNICAST ∨
        shifter (convert_from_network (ntpPacketFromRaw resp)).li_vn_mode
          MODE_MASK MODE_SHIFT = SNTP_BROADCAST) →
      shifter req.li_vn_mode VERSION_MASK VERSION_SHIFT ≠
        shifter (convert_from_network (ntpPacketFromRaw resp)).li_vn_mode
          VERSION_MASK VERSION_SHIFT →
      process_response req resp ts =
        Except.error ("Incorrect response version")) ∧
    (req.tx_timestamp =
        (convert_from_network (ntpPacketFromRaw resp)).origin_timestamp →
      (shifter (convert_from_network (ntpPacketFromRaw resp)).li_vn_mode
          MODE_MASK MODE_SHIFT = SNTP_UNICAST ∨
        shifter (convert_from_network (ntpPacketFromRaw resp)).li_vn_mode
          MODE_MASK MODE_SHIFT = SNTP_BROADCAST) →
      shifter req.li_vn_mode VERSION_MASK VERSION_SHIFT =
        shifter (convert_from_network (ntpPacketFromRaw resp)).li_vn_mode
          VERSION_MASK VERSION_SHIFT →
      (convert_from_network (ntpPacketFromRaw resp)).stratum = 0 →
      process_response req resp ts =
        Except.error ("Incorrect STRATUM headers")) := by
  refine ⟨?_, ?_, ?_, ?_⟩
  · rintro ⟨h1, -⟩
    simp only [process_response]
    rw [if_pos h1]
  · intro h1 h4 h5
    simp only [process_response]
    rw [if_neg (not_not_intro h1), if_pos ⟨h4, h5⟩]
  · intro h1 hmode hver
    simp only [process_response]
    rw [if_neg (not_not_intro h1), if_neg (by omega),
      if_neg (Nat.not_lt.mpr (li_shift_le _)), if_pos hver]
  · intro h1 hmode hver hstrat
    simp only [process_response]
    rw [if_neg (not_not_intro h1), if_neg (by omega),
      if_neg (Nat.not_lt.mpr (li_shift_le _)), if_neg (not_not_intro hver),
      if_pos hstrat]

/-- Witness for Claim C2: the all-zero response to a request with
transmit timestamp one fails both the origin check and the stratum
check, and the returned error is the origin-timestamp one. -/
theorem validation_order_witness :
    (reqOne.tx_timestamp ≠
        (convert_from_network (ntpPacketFromRaw respZero)).origin_timestamp ∧
      (convert_from_network (ntpPacketFromRaw respZero)).stratum = 0) ∧
    process_response reqOne respZero 0 =
      Except.error ("Incorrect origin timestamp") :=
  ⟨⟨by decide, by decide⟩,
   (validation_order reqOne respZero 0).1 ⟨by decide, by decide⟩⟩

theorem toI64_subU64_emod (a b : Nat) (ha : a < 18446744073709551616)
    (hb : b < 18446744073709551616) :
    toI64 (subU64 a b) % 18446744073709551616 =
      ((a : Int) - b) % 18446744073709551616 := by
  unfold toI64 subU64
  split <;> omega

theorem toI64_emod (n : Nat) :
    toI64 n % 18446744073709551616 = (n : Int) % 18446744073709551616 := by
  unfold toI64
  split <;> omega

theorem wrapI64_congr (a b : Int)
    (h : a % 18446744073709551616 = b % 18446744073709551616) :
    wrapI64 a = wrapI64 b := by
  unfold wrapI64
  omega

theorem wrapI64_emod (z : Int) :
    wrapI64 z % 18446744073709551616 = z % 18446744073709551616 := by
  unfold wrapI64
  omega

theorem wrapI64_range (z : Int) :
    -9223372036854775808 ≤ wrapI64 z ∧ wrapI64 z < 9223372036854775808 := by
  unfold wrapI64
  omega

theorem toU64_i64abs_wrap (z : Int) :
    toU64 (i64abs (wrapI64 z)) = (wrapI64 z).natAbs := by
  unfold toU64 i64abs wrapI64
  omega

theorem delta_code_eq_spec (t1 t2 t3 t4 : Nat)
    (h1 : t1 < 18446744073709551616) (h2 : t2 < 18446744073709551616)
    (h3 : t3 < 18446744073709551616) (h4 : t4 < 18446744073709551616) :
    wrapI64 (toI64 (subU64 t4 t1) - toI64 (subU64 t3 t2)) =
      wrapI64 (wrapI64 (toI64 t4 - toI64 t1) - wrapI64 (toI64 t3 - toI64 t2)) := by
  apply wrapI64_congr
  have e41 := toI64_subU64_emod t4 t1 h4 h1
  have e32 := toI64_subU64_emod t3 t2 h3 h2
  have f1 := toI64_emod t1
  have f2 := toI64_emod t2
  have f3 := toI64_emod t3
  have f4 := toI64_emod t4
  have w1 := wrapI64_emod (toI64 t4 - toI64 t1)
  have w2 := wrapI64_emod (toI64 t3 - toI64 t2)
  have g1 := wrapI64_range (toI64 t4 - toI64 t1)
  have g2 := wrapI64_range (toI64 t3 - toI64 t2)
  omega

theorem ntohl64_lt (n : Nat) : ntohl64 n < U64_MOD := by
  unfold ntohl64 U64_MOD
  omega

theorem conv_origin_lt (p : NtpPacket) :
    (convert_from_network p).origin_timestamp < U64_MOD :=
  ntohl64_lt _

theorem conv_recv_lt (p : NtpPacket) :
    (convert_from_network p).recv_timestamp < U64_MOD :=
  ntohl64_lt _

theorem conv_tx_lt (p : NtpPacket) :
    (convert_from_network p).tx_timestamp < U64_MOD :=
  ntohl64_lt _

theorem new_roundtrip_eq (a b c : Nat) (d : Int) :
    (NtpResult.new a b c d).roundtrip = c := rfl

/-- Claim C3: for every validated response, the roundtrip value placed
in the Result equals the absolute value of (T4 - T1) - (T3 - T2)
computed in signed 64-bit arithmetic on the full timestamp values, with
T1 the request transmit timestamp, T2 and T3 the response receive and
transmit timestamps after byte-order correction, and T4 the local
receive time. -/
theorem roundtrip_matches_spec (req : NtpPacket) (resp : List Nat)
    (ts : Nat) (r : NtpResult) (hts : ts < U64_MOD)
    (h : process_response req resp ts = Except.ok r) :
    r.roundtrip = delaySpec req.tx_timestamp
      (convert_from_network (ntpPacketFromRaw resp)).recv_timestamp
      (convert_from_network (ntpPacketFromRaw resp)).tx_timestamp ts := by
  simp only [process_response] at h
  split at h
  · exact Except.noConfusion h
  · split at h
    · exact Except.noConfusion h
    · split at h
      · exact Except.noConfusion h
      · split at h
        · exact Except.noConfusion h
        · split at h
          · exact Except.noConfusion h
          · rename_i hor hmode hli hver hstrat
            injection h with h
            subst h
            rw [new_roundtrip_eq]
            rw [not_ne_iff.mp hor]
            rw [delta_code_eq_spec _ _ _ _ (conv_origin_lt _) (conv_recv_lt _)
              (conv_tx_lt _) hts]
            simp only [delaySpec]
            exact toU64_i64abs_wrap _

/-- Witness for Claim C3 at the concrete valid exchange reqEx / respEx
with local receive time 0: the Result roundtrip is 4 and so is the
specification delay formula. -/
theorem roundtrip_matches_spec_witness :
    0 < U64_MOD ∧
    (NtpResult.mk 2085978496 4 4 (-2)).roundtrip = delaySpec reqEx.tx_timestamp
      (convert_from_network (ntpPacketFromRaw respEx)).recv_timestamp
      (convert_from_network (ntpPacketFromRaw respEx)).tx_timestamp 0 :=
  ⟨by decide,
   roundtrip_matches_spec reqEx respEx 0 (NtpResult.mk 2085978496 4 4 (-2))
     (by decide) rfl⟩

/-- Claim C4 refutation: on the valid exchange reqEx / respEx with
T1 = 0, T2 = 0, T3 = 4, T4 = 0, the code places offset -2 in the Result
(it computes ((T2 - T1) + (T4 - T3)) / 2, contradicting its own comment),
while the specified formula ((T2 - T1) + (T3 - T4)) / 2 gives +2. -/
theorem offset_formula_bug :
    process_response reqEx respEx 0 =
      Except.ok (NtpResult.mk 2085978496 4 4 (-2)) ∧
    offsetSpec 0 0 4 0 = 2 ∧ ((-2 : Int) ≠ 2) :=
  ⟨rfl, by decide, by decide⟩
